import Mathlib

/-!
Shallow embedding of the AI Time Machines Rust SDK (`src/sdk/rust/lib.rs`).

The only effect in the source is reading process environment variables
(`std::env::var(name).unwrap_or_default()`), so the environment is modelled
explicitly as a map from variable name to optional value, passed to each
constructor.  Rust's `Result<(), String>` is modelled as `Except String Unit`
and `Option<String>` arguments as `Option String`.
-/

/-- The process environment: a map from variable name to its value, `none`
when the variable is unset. -/
abbrev Env : Type := String → Option String

/-- Embedding of `env::var(name).unwrap_or_default()`: the variable's value,
or the empty string when it is unset. -/
def envOrDefault (e : Env) (name : String) : String :=
  (e name).getD ""

/-- Embedding of `AIProviderConfig` (fields `provider`, `api_key`, `model`). -/
structure AIProviderConfig where
  provider : String
  api_key : String
  model : String

/-- Embedding of `AIProviderConfig::new`: each field is the explicit override
when present, else the environment variable (for `api_key`), else the literal
default. -/
def AIProviderConfig.new (e : Env)
    (provider api_key model : Option String) : AIProviderConfig where
  provider := provider.getD "openai"
  api_key := api_key.getD (envOrDefault e "AI_API_KEY")
  model := model.getD "gpt-4"

/-- Embedding of `AIProviderConfig::validate`. -/
def AIProviderConfig.validate (c : AIProviderConfig) : Except String Unit :=
  if c.api_key = "" then
    .error "AI_API_KEY not configured. Set via environment or constructor."
  else
    .ok ()

/-- Embedding of `VectorStoreConfig`. -/
structure VectorStoreConfig where
  provider : String
  api_key : String
  environment : String
  index_name : String

/-- Embedding of `VectorStoreConfig::new`. -/
def VectorStoreConfig.new (e : Env)
    (provider api_key environment index_name : Option String) :
    VectorStoreConfig where
  provider := provider.getD "pinecone"
  api_key := api_key.getD (envOrDefault e "VECTOR_STORE_API_KEY")
  environment := environment.getD (envOrDefault e "VECTOR_STORE_ENV")
  index_name := index_name.getD "default-index"

/-- Embedding of `VectorStoreConfig::validate`. -/
def VectorStoreConfig.validate (c : VectorStoreConfig) : Except String Unit :=
  if c.api_key = "" then
    .error "VECTOR_STORE_API_KEY not configured."
  else
    .ok ()

/-- Embedding of `Web3Config`. -/
structure Web3Config where
  chain : String
  rpc_url : String
  private_key : String
  network : String

/-- Embedding of `Web3Config::new`. -/
def Web3Config.new (e : Env)
    (chain rpc_url private_key network : Option String) : Web3Config where
  chain := chain.getD "ethereum"
  rpc_url := rpc_url.getD (envOrDefault e "WEB3_RPC_URL")
  private_key := private_key.getD (envOrDefault e "WEB3_PRIVATE_KEY")
  network := network.getD "mainnet"

/-- Embedding of `Web3Config::validate`. -/
def Web3Config.validate (c : Web3Config) : Except String Unit :=
  if c.rpc_url = "" then
    .error "WEB3_RPC_URL not configured."
  else
    .ok ()

/-- Embedding of `MessagingConfig`. -/
structure MessagingConfig where
  provider : String
  token : String
  channel : String

/-- Embedding of `MessagingConfig::new`. -/
def MessagingConfig.new (e : Env)
    (provider token channel : Option String) : MessagingConfig where
  provider := provider.getD "slack"
  token := token.getD (envOrDefault e "MESSAGING_TOKEN")
  channel := channel.getD (envOrDefault e "MESSAGING_CHANNEL")

/-- Embedding of `MessagingConfig::validate`. -/
def MessagingConfig.validate (c : MessagingConfig) : Except String Unit :=
  if c.token = "" then
    .error "MESSAGING_TOKEN not configured."
  else
    .ok ()

/-- Embedding of `DataStorageConfig`. -/
structure DataStorageConfig where
  storage_type : String
  connection_string : String
  bucket : String
  region : String

/-- Embedding of `DataStorageConfig::new`. -/
def DataStorageConfig.new (e : Env)
    (storage_type connection_string bucket region : Option String) :
    DataStorageConfig where
  storage_type := storage_type.getD "postgres"
  connection_string := connection_string.getD (envOrDefault e "DATABASE_URL")
  bucket := bucket.getD (envOrDefault e "S3_BUCKET")
  region := region.getD (envOrDefault e "AWS_REGION")

/-- Embedding of `DataStorageConfig::validate`: the check is conditional on
the resolved `storage_type`. -/
def DataStorageConfig.validate (c : DataStorageConfig) : Except String Unit :=
  if c.storage_type = "postgres" ∧ c.connection_string = "" then
    .error "DATABASE_URL not configured for Postgres."
  else if c.storage_type = "s3" ∧ c.bucket = "" then
    .error "S3_BUCKET not configured for S3 storage."
  else
    .ok ()

/-- Embedding of `AITimesMachinesSDK`: the aggregate owning one instance of
each leaf config. -/
structure AITimesMachinesSDK where
  ai : AIProviderConfig
  vector_store : VectorStoreConfig
  web3 : Web3Config
  messaging : MessagingConfig
  data_storage : DataStorageConfig

/-- Embedding of `AITimesMachinesSDK::new`: all five leaves constructed with
all-`None` arguments. -/
def AITimesMachinesSDK.new (e : Env) : AITimesMachinesSDK where
  ai := AIProviderConfig.new e none none none
  vector_store := VectorStoreConfig.new e none none none none
  web3 := Web3Config.new e none none none none
  messaging := MessagingConfig.new e none none none
  data_storage := DataStorageConfig.new e none none none none

/-- Embedding of Rust's `Result::is_ok` on the validator result type. -/
def is_ok : Except String Unit → Bool
  | .ok _ => true
  | .error _ => false

/-- Embedding of `AITimesMachinesSDK::validate_all`: the conjunction of the
five leaf validators' success. -/
def AITimesMachinesSDK.validate_all (s : AITimesMachinesSDK) : Bool :=
  is_ok s.ai.validate
    && is_ok s.vector_store.validate
    && is_ok s.web3.validate
    && is_ok s.messaging.validate
    && is_ok s.data_storage.validate

/-- Embedding of `impl Default for AITimesMachinesSDK`: delegates to `new`. -/
def AITimesMachinesSDK.default (e : Env) : AITimesMachinesSDK :=
  AITimesMachinesSDK.new e

/-- Whether the first character list starts the second one. -/
def leadsWith : List Char → List Char → Bool
  | [], _ => true
  | _ :: _, [] => false
  | a :: as, b :: bs => a == b && leadsWith as bs

/-- Whether the first character list occurs contiguously in the second. -/
def containsSub (needle : List Char) : List Char → Bool
  | [] => needle.isEmpty
  | c :: t => leadsWith needle (c :: t) || containsSub needle t

/-- A message "mentions" a name when the name occurs in it as a substring. -/
def mentions (needle msg : String) : Bool :=
  containsSub needle.data msg.data

/-- The variable's resolved value is its environment value when set. -/
theorem envOrDefault_some {e : Env} {n v : String} (h : e n = some v) :
    envOrDefault e n = v := by
  simp [envOrDefault, h]

/-- The variable's resolved value is the empty string when unset. -/
theorem envOrDefault_none {e : Env} {n : String} (h : e n = none) :
    envOrDefault e n = "" := by
  simp [envOrDefault, h]

/-- An environment with every consumed variable set to a non-empty value. -/
def envFull : Env := fun n =>
  if n = "AI_API_KEY" then some "ai-key"
  else if n = "VECTOR_STORE_API_KEY" then some "vs-key"
  else if n = "VECTOR_STORE_ENV" then some "us-east"
  else if n = "WEB3_RPC_URL" then some "https://rpc.example"
  else if n = "WEB3_PRIVATE_KEY" then some "0xabc"
  else if n = "MESSAGING_TOKEN" then some "msg-token"
  else if n = "MESSAGING_CHANNEL" then some "general"
  else if n = "DATABASE_URL" then some "postgres://db"
  else if n = "S3_BUCKET" then some "bucket-1"
  else if n = "AWS_REGION" then some "us-east-1"
  else none

/-- `envFull` with the Web3 RPC URL variable removed. -/
def envNoWeb3 : Env := fun n =>
  if n = "WEB3_RPC_URL" then none else envFull n

/-- The empty environment: no variable is set. -/
def envEmpty : Env := fun _ => none

/-- C2: for every leaf constructor and every field, passing an explicit
override `some v` makes the resolved field exactly `v`, whatever the
environment and the other arguments are. -/
theorem override_yields_exact_value :
    (∀ (e : Env) (v : String) (a m : Option String),
      (AIProviderConfig.new e (some v) a m).provider = v) ∧
    (∀ (e : Env) (v : String) (p m : Option String),
      (AIProviderConfig.new e p (some v) m).api_key = v) ∧
    (∀ (e : Env) (v : String) (p a : Option String),
      (AIProviderConfig.new e p a (some v)).model = v) ∧
    (∀ (e : Env) (v : String) (a en i : Option String),
      (VectorStoreConfig.new e (some v) a en i).provider = v) ∧
    (∀ (e : Env) (v : String) (p en i : Option String),
      (VectorStoreConfig.new e p (some v) en i).api_key = v) ∧
    (∀ (e : Env) (v : String) (p a i : Option String),
      (VectorStoreConfig.new e p a (some v) i).environment = v) ∧
    (∀ (e : Env) (v : String) (p a en : Option String),
      (VectorStoreConfig.new e p a en (some v)).index_name = v) ∧
    (∀ (e : Env) (v : String) (r k n : Option String),
      (Web3Config.new e (some v) r k n).chain = v) ∧
    (∀ (e : Env) (v : String) (c k n : Option String),
      (Web3Config.new e c (some v) k n).rpc_url = v) ∧
    (∀ (e : Env) (v : String) (c r n : Option String),
      (Web3Config.new e c r (some v) n).private_key = v) ∧
    (∀ (e : Env) (v : String) (c r k : Option String),
      (Web3Config.new e c r k (some v)).network = v) ∧
    (∀ (e : Env) (v : String) (t c : Option String),
      (MessagingConfig.new e (some v) t c).provider = v) ∧
    (∀ (e : Env) (v : String) (p c : Option String),
      (MessagingConfig.new e p (some v) c).token = v) ∧
    (∀ (e : Env) (v : String) (p t : Option String),
      (MessagingConfig.new e p t (some v)).channel = v) ∧
    (∀ (e : Env) (v : String) (c b r : Option String),
      (DataStorageConfig.new e (some v) c b r).storage_type = v) ∧
    (∀ (e : Env) (v : String) (s b r : Option String),
      (DataStorageConfig.new e s (some v) b r).connection_string = v) ∧
    (∀ (e : Env) (v : String) (s c r : Option String),
      (DataStorageConfig.new e s c (some v) r).bucket = v) ∧
    (∀ (e : Env) (v : String) (s c b : Option String),
      (DataStorageConfig.new e s c b (some v)).region = v) := by
  repeat' apply And.intro
  all_goals intros
  all_goals rfl

/-- C10: `Default::default` for the facade is exactly `new`, and `new` builds
each leaf with all-`none` arguments (fully-defaulted resolution). -/
theorem default_matches_new (e : Env) :
    AITimesMachinesSDK.default e = AITimesMachinesSDK.new e ∧
    (AITimesMachinesSDK.new e).ai = AIProviderConfig.new e none none none ∧
    (AITimesMachinesSDK.new e).vector_store
      = VectorStoreConfig.new e none none none none ∧
    (AITimesMachinesSDK.new e).web3 = Web3Config.new e none none none none ∧
    (AITimesMachinesSDK.new e).messaging = MessagingConfig.new e none none none ∧
    (AITimesMachinesSDK.new e).data_storage
      = DataStorageConfig.new e none none none none :=
  ⟨rfl, rfl, rfl, rfl, rfl, rfl⟩

/-- C8: an explicit override equal to the empty string is taken as-is, not
treated as absent: the required field resolves empty in every environment and
validation then fails. -/
theorem empty_override_taken_as_is (e : Env) :
    (AIProviderConfig.new e none (some "") none).api_key = "" ∧
    is_ok (AIProviderConfig.new e none (some "") none).validate = false ∧
    (VectorStoreConfig.new e none (some "") none none).api_key = "" ∧
    is_ok (VectorStoreConfig.new e none (some "") none none).validate = false ∧
    (Web3Config.new e none (some "") none none).rpc_url = "" ∧
    is_ok (Web3Config.new e none (some "") none none).validate = false ∧
    (MessagingConfig.new e none (some "") none).token = "" ∧
    is_ok (MessagingConfig.new e none (some "") none).validate = false ∧
    (DataStorageConfig.new e none (some "") none none).connection_string = "" ∧
    is_ok (DataStorageConfig.new e none (some "") none none).validate = false := by
  refine ⟨rfl, ?_, rfl, ?_, rfl, ?_, rfl, ?_, rfl, ?_⟩ <;>
    simp [AIProviderConfig.new, AIProviderConfig.validate,
      VectorStoreConfig.new, VectorStoreConfig.validate,
      Web3Config.new, Web3Config.validate,
      MessagingConfig.new, MessagingConfig.validate,
      DataStorageConfig.new, DataStorageConfig.validate, is_ok]

/-- C1: `validate_all` is true iff all five leaf validators return `Ok`; when
every leaf's required field resolves non-empty it is true, and when the Web3
RPC URL resolves empty (e.g., `WEB3_RPC_URL` unset, all others set) it is
false. -/
theorem validate_all_iff_all_leaves :
    (∀ s : AITimesMachinesSDK,
      s.validate_all = true ↔
        (is_ok s.ai.validate = true ∧ is_ok s.vector_store.validate = true ∧
         is_ok s.web3.validate = true ∧ is_ok s.messaging.validate = true ∧
         is_ok s.data_storage.validate = true)) ∧
    (∀ e : Env,
      envOrDefault e "AI_API_KEY" ≠ "" →
      envOrDefault e "VECTOR_STORE_API_KEY" ≠ "" →
      envOrDefault e "WEB3_RPC_URL" ≠ "" →
      envOrDefault e "MESSAGING_TOKEN" ≠ "" →
      envOrDefault e "DATABASE_URL" ≠ "" →
      (AITimesMachinesSDK.new e).validate_all = true) ∧
    (∀ e : Env,
      envOrDefault e "WEB3_RPC_URL" = "" →
      (AITimesMachinesSDK.new e).validate_all = false) := by
  refine ⟨?_, ?_, ?_⟩
  · intro s
    simp [AITimesMachinesSDK.validate_all, Bool.and_eq_true, and_assoc]
  · intro e h1 h2 h3 h4 h5
    simp [AITimesMachinesSDK.validate_all, AITimesMachinesSDK.new,
      AIProviderConfig.new, AIProviderConfig.validate,
      VectorStoreConfig.new, VectorStoreConfig.validate,
      Web3Config.new, Web3Config.validate,
      MessagingConfig.new, MessagingConfig.validate,
      DataStorageConfig.new, DataStorageConfig.validate, is_ok,
      h1, h2, h3, h4, h5]
  · intro e h
    simp [AITimesMachinesSDK.validate_all, AITimesMachinesSDK.new,
      Web3Config.new, Web3Config.validate, is_ok, h]

/-- Witness for C1: with every variable set `validate_all` is true, and with
only `WEB3_RPC_URL` removed it is false. -/
theorem validate_all_iff_all_leaves_witness :
    (AITimesMachinesSDK.new envFull).validate_all = true ∧
    (AITimesMachinesSDK.new envNoWeb3).validate_all = false :=
  ⟨validate_all_iff_all_leaves.2.1 envFull (by decide) (by decide) (by decide)
      (by decide) (by decide),
   validate_all_iff_all_leaves.2.2 envNoWeb3 (by decide)⟩

/-- C3: constructing each leaf with no overrides resolves every
environment-backed field to the variable's exact value when set and to the
empty string when unset, and every literal-default field to its documented
default. -/
theorem defaulted_resolution (e : Env) :
    (AIProviderConfig.new e none none none).provider = "openai" ∧
    (AIProviderConfig.new e none none none).model = "gpt-4" ∧
    (∀ v, e "AI_API_KEY" = some v →
      (AIProviderConfig.new e none none none).api_key = v) ∧
    (e "AI_API_KEY" = none → (AIProviderConfig.new e none none none).api_key = "") ∧
    (VectorStoreConfig.new e none none none none).provider = "pinecone" ∧
    (VectorStoreConfig.new e none none none none).index_name = "default-index" ∧
    (∀ v, e "VECTOR_STORE_API_KEY" = some v →
      (VectorStoreConfig.new e none none none none).api_key = v) ∧
    (e "VECTOR_STORE_API_KEY" = none →
      (VectorStoreConfig.new e none none none none).api_key = "") ∧
    (∀ v, e "VECTOR_STORE_ENV" = some v →
      (VectorStoreConfig.new e none none none none).environment = v) ∧
    (e "VECTOR_STORE_ENV" = none →
      (VectorStoreConfig.new e none none none none).environment = "") ∧
    (Web3Config.new e none none none none).chain = "ethereum" ∧
    (Web3Config.new e none none none none).network = "mainnet" ∧
    (∀ v, e "WEB3_RPC_URL" = some v →
      (Web3Config.new e none none none none).rpc_url = v) ∧
    (e "WEB3_RPC_URL" = none → (Web3Config.new e none none none none).rpc_url = "") ∧
    (∀ v, e "WEB3_PRIVATE_KEY" = some v →
      (Web3Config.new e none none none none).private_key = v) ∧
    (e "WEB3_PRIVATE_KEY" = none →
      (Web3Config.new e none none none none).private_key = "") ∧
    (MessagingConfig.new e none none none).provider = "slack" ∧
    (∀ v, e "MESSAGING_TOKEN" = some v →
      (MessagingConfig.new e none none none).token = v) ∧
    (e "MESSAGING_TOKEN" = none → (MessagingConfig.new e none none none).token = "") ∧
    (∀ v, e "MESSAGING_CHANNEL" = some v →
      (MessagingConfig.new e none none none).channel = v) ∧
    (e "MESSAGING_CHANNEL" = none →
      (MessagingConfig.new e none none none).channel = "") ∧
    (DataStorageConfig.new e none none none none).storage_type = "postgres" ∧
    (∀ v, e "DATABASE_URL" = some v →
      (DataStorageConfig.new e none none none none).connection_string = v) ∧
    (e "DATABASE_URL" = none →
      (DataStorageConfig.new e none none none none).connection_string = "") ∧
    (∀ v, e "S3_BUCKET" = some v →
      (DataStorageConfig.new e none none none none).bucket = v) ∧
    (e "S3_BUCKET" = none → (DataStorageConfig.new e none none none none).bucket = "") ∧
    (∀ v, e "AWS_REGION" = some v →
      (DataStorageConfig.new e none none none none).region = v) ∧
    (e "AWS_REGION" = none → (DataStorageConfig.new e none none none none).region = "") := by
  repeat' apply And.intro
  all_goals intros
  all_goals first
    | rfl
    | (rename_i h
       simp [AIProviderConfig.new, VectorStoreConfig.new, Web3Config.new,
         MessagingConfig.new, DataStorageConfig.new, envOrDefault_some h])
    | (rename_i h
       simp [AIProviderConfig.new, VectorStoreConfig.new, Web3Config.new,
         MessagingConfig.new, DataStorageConfig.new, envOrDefault_none h])

/-- Witness for C3: concrete resolutions in a full and in an empty
environment. -/
theorem defaulted_resolution_witness :
    (AIProviderConfig.new envFull none none none).api_key = "ai-key" ∧
    (AIProviderConfig.new envEmpty none none none).api_key = "" ∧
    (Web3Config.new envFull none none none none).rpc_url = "https://rpc.example" :=
  ⟨(defaulted_resolution envFull).2.2.1 "ai-key" (by decide),
   (defaulted_resolution envEmpty).2.2.2.1 (by decide),
   (defaulted_resolution envFull).2.2.2.2.2.2.2.2.2.2.2.2.1 "https://rpc.example"
     (by decide)⟩

/-- C4: `DataStorageConfig::validate` branches on the resolved storage type:
s3 with empty bucket fails mentioning S3_BUCKET, postgres with empty
connection string fails mentioning DATABASE_URL, and any other storage type
always succeeds. -/
theorem data_storage_validate_branches (c : DataStorageConfig) :
    (c.storage_type = "s3" → c.bucket = "" →
      ∃ msg, c.validate = Except.error msg ∧ mentions "S3_BUCKET" msg = true) ∧
    (c.storage_type = "postgres" → c.connection_string = "" →
      ∃ msg, c.validate = Except.error msg ∧ mentions "DATABASE_URL" msg = true) ∧
    (c.storage_type ≠ "s3" → c.storage_type ≠ "postgres" →
      c.validate = Except.ok ()) := by
  refine ⟨?_, ?_, ?_⟩
  · intro hs hb
    refine ⟨"S3_BUCKET not configured for S3 storage.", ?_, by decide⟩
    simp [DataStorageConfig.validate, hs, hb]
  · intro hs hc
    refine ⟨"DATABASE_URL not configured for Postgres.", ?_, by decide⟩
    simp [DataStorageConfig.validate, hs, hc]
  · intro h1 h2
    simp [DataStorageConfig.validate, h1, h2]

/-- Witness for C4: the three storage types exercised on concrete configs
with every other field empty. -/
theorem data_storage_validate_branches_witness :
    (∃ msg, (DataStorageConfig.mk "s3" "" "" "").validate = Except.error msg ∧
      mentions "S3_BUCKET" msg = true) ∧
    (∃ msg, (DataStorageConfig.mk "postgres" "" "" "").validate = Except.error msg ∧
      mentions "DATABASE_URL" msg = true) ∧
    (DataStorageConfig.mk "ipfs" "" "" "").validate = Except.ok () :=
  ⟨(data_storage_validate_branches (DataStorageConfig.mk "s3" "" "" "")).1 rfl rfl,
   (data_storage_validate_branches (DataStorageConfig.mk "postgres" "" "" "")).2.1
     rfl rfl,
   (data_storage_validate_branches (DataStorageConfig.mk "ipfs" "" "" "")).2.2
     (by decide) (by decide)⟩

/-- C5: with all-`none` arguments and `AI_API_KEY` unset, the AI config's
api_key is empty and its validation fails with a message mentioning
AI_API_KEY. -/
theorem ai_validate_fails_without_key (e : Env) (h : e "AI_API_KEY" = none) :
    (AIProviderConfig.new e none none none).api_key = "" ∧
    ∃ msg, (AIProviderConfig.new e none none none).validate = Except.error msg ∧
      mentions "AI_API_KEY" msg = true := by
  have hk : (AIProviderConfig.new e none none none).api_key = "" := by
    simp [AIProviderConfig.new, envOrDefault_none h]
  refine ⟨hk,
    "AI_API_KEY not configured. Set via environment or constructor.", ?_, by decide⟩
  simp [AIProviderConfig.validate, hk]

/-- Witness for C5: the empty environment. -/
theorem ai_validate_fails_without_key_witness :
    (AIProviderConfig.new envEmpty none none none).api_key = "" ∧
    ∃ msg, (AIProviderConfig.new envEmpty none none none).validate
        = Except.error msg ∧ mentions "AI_API_KEY" msg = true :=
  ai_validate_fails_without_key envEmpty rfl

/-- C6: every leaf validator and `validate_all` is a function of the
already-resolved fields alone (configs equal field-for-field validate
identically), and repeating a call any number of times always returns the
same result. -/
theorem validation_deterministic_pure :
    (∀ c₁ c₂ : AIProviderConfig, c₁.provider = c₂.provider →
      c₁.api_key = c₂.api_key → c₁.model = c₂.model →
      c₁.validate = c₂.validate) ∧
    (∀ c₁ c₂ : VectorStoreConfig, c₁.provider = c₂.provider →
      c₁.api_key = c₂.api_key → c₁.environment = c₂.environment →
      c₁.index_name = c₂.index_name → c₁.validate = c₂.validate) ∧
    (∀ c₁ c₂ : Web3Config, c₁.chain = c₂.chain → c₁.rpc_url = c₂.rpc_url →
      c₁.private_key = c₂.private_key → c₁.network = c₂.network →
      c₁.validate = c₂.validate) ∧
    (∀ c₁ c₂ : MessagingConfig, c₁.provider = c₂.provider →
      c₁.token = c₂.token → c₁.channel = c₂.channel →
      c₁.validate = c₂.validate) ∧
    (∀ c₁ c₂ : DataStorageConfig, c₁.storage_type = c₂.storage_type →
      c₁.connection_string = c₂.connection_string → c₁.bucket = c₂.bucket →
      c₁.region = c₂.region → c₁.validate = c₂.validate) ∧
    (∀ s₁ s₂ : AITimesMachinesSDK, s₁.ai = s₂.ai →
      s₁.vector_store = s₂.vector_store → s₁.web3 = s₂.web3 →
      s₁.messaging = s₂.messaging → s₁.data_storage = s₂.data_storage →
      s₁.validate_all = s₂.validate_all) ∧
    (∀ (c : AIProviderConfig) (n : Nat) (r : Except String Unit),
      r ∈ List.replicate n c.validate → r = c.validate) ∧
    (∀ (c : VectorStoreConfig) (n : Nat) (r : Except String Unit),
      r ∈ List.replicate n c.validate → r = c.validate) ∧
    (∀ (c : Web3Config) (n : Nat) (r : Except String Unit),
      r ∈ List.replicate n c.validate → r = c.validate) ∧
    (∀ (c : MessagingConfig) (n : Nat) (r : Except String Unit),
      r ∈ List.replicate n c.validate → r = c.validate) ∧
    (∀ (c : DataStorageConfig) (n : Nat) (r : Except String Unit),
      r ∈ List.replicate n c.validate → r = c.validate) ∧
    (∀ (s : AITimesMachinesSDK) (n : Nat) (b : Bool),
      b ∈ List.replicate n s.validate_all → b = s.validate_all) := by
  refine ⟨?_, ?_, ?_, ?_, ?_, ?_, ?_, ?_, ?_, ?_, ?_, ?_⟩
  · intro c₁ c₂ h1 h2 h3
    have hc : c₁ = c₂ := by cases c₁; cases c₂; simp_all
    rw [hc]
  · intro c₁ c₂ h1 h2 h3 h4
    have hc : c₁ = c₂ := by cases c₁; cases c₂; simp_all
    rw [hc]
  · intro c₁ c₂ h1 h2 h3 h4
    have hc : c₁ = c₂ := by cases c₁; cases c₂; simp_all
    rw [hc]
  · intro c₁ c₂ h1 h2 h3
    have hc : c₁ = c₂ := by cases c₁; cases c₂; simp_all
    rw [hc]
  · intro c₁ c₂ h1 h2 h3 h4
    have hc : c₁ = c₂ := by cases c₁; cases c₂; simp_all
    rw [hc]
  · intro s₁ s₂ h1 h2 h3 h4 h5
    have hs : s₁ = s₂ := by cases s₁; cases s₂; simp_all
    rw [hs]
  all_goals
    intro _ n r hr
    exact List.eq_of_mem_replicate hr

/-- Witness for C6: a concrete config validated against an identical copy,
and two repeated calls on the default facade agreeing. -/
theorem validation_deterministic_pure_witness :
    (AIProviderConfig.mk "openai" "k" "gpt-4").validate
      = (AIProviderConfig.mk "openai" "k" "gpt-4").validate ∧
    (AITimesMachinesSDK.new envEmpty).validate_all
      = (AITimesMachinesSDK.new envEmpty).validate_all :=
  ⟨validation_deterministic_pure.1 (AIProviderConfig.mk "openai" "k" "gpt-4")
      (AIProviderConfig.mk "openai" "k" "gpt-4") rfl rfl rfl,
   validation_deterministic_pure.2.2.2.2.2.2.2.2.2.2.2
      (AITimesMachinesSDK.new envEmpty) 2
      (AITimesMachinesSDK.new envEmpty).validate_all (by simp)⟩

/-- C9: each leaf validator's result depends only on its designated required
fields; every other field may differ arbitrarily. -/
theorem validate_depends_only_on_required_field :
    (∀ c₁ c₂ : AIProviderConfig, c₁.api_key = c₂.api_key →
      c₁.validate = c₂.validate) ∧
    (∀ c₁ c₂ : VectorStoreConfig, c₁.api_key = c₂.api_key →
      c₁.validate = c₂.validate) ∧
    (∀ c₁ c₂ : Web3Config, c₁.rpc_url = c₂.rpc_url →
      c₁.validate = c₂.validate) ∧
    (∀ c₁ c₂ : MessagingConfig, c₁.token = c₂.token →
      c₁.validate = c₂.validate) ∧
    (∀ c₁ c₂ : DataStorageConfig, c₁.storage_type = c₂.storage_type →
      c₁.connection_string = c₂.connection_string → c₁.bucket = c₂.bucket →
      c₁.validate = c₂.validate) := by
  refine ⟨?_, ?_, ?_, ?_, ?_⟩ <;> intros <;>
    simp_all [AIProviderConfig.validate, VectorStoreConfig.validate,
      Web3Config.validate, MessagingConfig.validate, DataStorageConfig.validate]

/-- Witness for C9: configs agreeing only on their required fields validate
identically. -/
theorem validate_depends_only_on_required_field_witness :
    (AIProviderConfig.mk "openai" "k" "gpt-4").validate
      = (AIProviderConfig.mk "custom" "k" "llama").validate ∧
    (DataStorageConfig.mk "ipfs" "" "" "eu-west").validate
      = (DataStorageConfig.mk "ipfs" "" "" "us-east").validate :=
  ⟨validate_depends_only_on_required_field.1 (AIProviderConfig.mk "openai" "k" "gpt-4")
      (AIProviderConfig.mk "custom" "k" "llama") rfl,
   validate_depends_only_on_required_field.2.2.2.2
      (DataStorageConfig.mk "ipfs" "" "" "eu-west")
      (DataStorageConfig.mk "ipfs" "" "" "us-east") rfl rfl rfl⟩

/-- C7 counterexample: `DataStorageConfig::validate` can return two distinct
error message strings — one for the postgres branch and one for the s3
branch — so "exactly one possible error message per entity" fails for the
storage entity. -/
theorem data_storage_two_error_messages :
    (DataStorageConfig.mk "postgres" "" "" "").validate
      = Except.error "DATABASE_URL not configured for Postgres." ∧
    (DataStorageConfig.mk "s3" "" "" "").validate
      = Except.error "S3_BUCKET not configured for S3 storage." ∧
    ("DATABASE_URL not configured for Postgres." : String)
      ≠ "S3_BUCKET not configured for S3 storage." := by
  refine ⟨?_, ?_, by decide⟩ <;> simp [DataStorageConfig.validate]

/-- C7 amended: each of the AI, vector-store, web3 and messaging validators
has exactly one possible error message string; the storage validator has
exactly two (the postgres and s3 messages). All failures are plain message
strings produced by presence checks. -/
theorem error_message_inventory :
    (∀ c : AIProviderConfig, c.validate = Except.ok () ∨
      c.validate = Except.error
        "AI_API_KEY not configured. Set via environment or constructor.") ∧
    (∀ c : VectorStoreConfig, c.validate = Except.ok () ∨
      c.validate = Except.error "VECTOR_STORE_API_KEY not configured.") ∧
    (∀ c : Web3Config, c.validate = Except.ok () ∨
      c.validate = Except.error "WEB3_RPC_URL not configured.") ∧
    (∀ c : MessagingConfig, c.validate = Except.ok () ∨
      c.validate = Except.error "MESSAGING_TOKEN not configured.") ∧
    (∀ c : DataStorageConfig, c.validate = Except.ok () ∨
      c.validate = Except.error "DATABASE_URL not configured for Postgres." ∨
      c.validate = Except.error "S3_BUCKET not configured for S3 storage.") := by
  refine ⟨?_, ?_, ?_, ?_, ?_⟩
  · intro c
    by_cases h : c.api_key = "" <;> simp [AIProviderConfig.validate, h]
  · intro c
    by_cases h : c.api_key = "" <;> simp [VectorStoreConfig.validate, h]
  · intro c
    by_cases h : c.rpc_url = "" <;> simp [Web3Config.validate, h]
  · intro c
    by_cases h : c.token = "" <;> simp [MessagingConfig.validate, h]
  · intro c
    by_cases h1 : c.storage_type = "postgres" ∧ c.connection_string = "" <;>
      by_cases h2 : c.storage_type = "s3" ∧ c.bucket = "" <;>
      simp [DataStorageConfig.validate, h1, h2]
